import Mathlib

/-!
Verification of the multi-tenant SQLAlchemy configuration and migration CLI
plugin (`src/config.py`, `src/plugin.py`, `src/plugin_commands.py`).

The Python code is shallowly embedded: dictionaries become association
lists, `None`-able values become `Option`, raised exceptions become
`Except`/explicit error fields, and side effects (session creation, SQL
statements, migration-engine invocations) are recorded as explicit values
so that theorems can talk about exactly which effects a call performs.
-/

set_option autoImplicit false

namespace MT

/-! ### Model of `advanced_alchemy.utils.text.slugify`

`slugify(value, allow_unicode=False, separator=sep)` lowercases the value,
removes every character that is not a word character (`[a-zA-Z0-9_]`),
whitespace or a hyphen, replaces every maximal run of hyphens/whitespace by
the separator, and strips leading and trailing `-` and `_` characters.
The model is restricted to ASCII input, on which the `NFKD`-normalise /
ascii-encode step of the library function is the identity. -/

/-- Python `\s` (ASCII whitespace classes used by `re`). -/
def pyIsSpace (c : Char) : Bool :=
  c = ' ' || c = '\t' || c = '\n' || c = '\r' || c = '\x0b' || c = '\x0c'

/-- Python `\w` on ASCII input: letters, digits and underscore. -/
def pyIsWord (c : Char) : Bool :=
  ('a' ≤ c && c ≤ 'z') || ('A' ≤ c && c ≤ 'Z') || ('0' ≤ c && c ≤ '9') || c = '_'

/-- Characters kept by `re.sub(r"[^\w\s-]", "", value)`. -/
def slugKeep (c : Char) : Bool :=
  pyIsWord c || pyIsSpace c || c = '-'

/-- Characters replaced by the separator: the class `[-\s]`. -/
def slugRun (c : Char) : Bool :=
  c = '-' || pyIsSpace c

/-- `re.sub(r"[-\s]+", sep, l)`: replace each maximal run of `[-\s]`
characters by the separator.  The boolean argument records whether the
previous character belonged to such a run. -/
def collapseRuns (sep : List Char) : List Char → Bool → List Char
  | [], _ => []
  | c :: rest, inRun =>
      if slugRun c then
        (if inRun then [] else sep) ++ collapseRuns sep rest true
      else
        c :: collapseRuns sep rest false

/-- Characters removed by `.strip("-_")`. -/
def stripChar (c : Char) : Bool :=
  c = '-' || c = '_'

/-- Python `.strip("-_")`: drop leading and trailing `-`/`_` characters. -/
def stripDashUnderscore (l : List Char) : List Char :=
  ((l.dropWhile stripChar).reverse.dropWhile stripChar).reverse

/-- `advanced_alchemy.utils.text.slugify` with `allow_unicode=False` and an
explicit separator, modelled on ASCII input. -/
def slugify (value : String) (separator : String) : String :=
  let lowered := value.data.map Char.toLower
  let cleaned := lowered.filter slugKeep
  ⟨stripDashUnderscore (collapseRuns separator.data cleaned false)⟩

/-! ### `SQLAlchemyMultiTenantAsyncConfig` (`src/config.py`)

`session_scope_key` and the alembic script location belong to the inherited
base configuration (`SQLAlchemyAsyncConfig`); they are carried as plain
string fields here with the library defaults. -/

structure MTConfig where
  core_schema_name : String := "core"
  core_revision_name : String := "core"
  tenant_schema_prefix : String := "tenant"
  tenant_revision_name : String := "tenant"
  tenant_schema_separator : String := "_"
  session_scope_key : String := "_sqlalchemy_db_session"
  alembic_script_location : String := "migrations"
deriving DecidableEq, Repr

/-- The configuration with every field at its declared default. -/
def mtDefault : MTConfig := {}

/-- The `schema_translate_map` dictionary: `Option`-keyed so that the
Python key `None` is representable (`config.py` line 55 builds
a map from `None` to the schema name). -/
abbrev SchemaMap := List (Option String × String)

/-- A SQLAlchemy `AsyncSession` as far as this code observes it: an
identity (so that distinct creations are distinguishable) and the
`schema_translate_map` execution option bound to its engine, if any. -/
structure Session where
  id : Nat
  bound : Option SchemaMap
deriving DecidableEq, Repr

/-- The per-request scope state used by `get_aa_scope_state` /
`set_aa_scope_state`: a string-keyed dictionary of sessions. -/
abbrev ScopeState := List (String × Session)

/-- Python `dict.get(k, None)` on an association list. -/
def dict_get {α : Type} (ps : List (String × α)) (k : String) : Option α :=
  match ps.find? (fun p => p.1 == k) with
  | some p => some p.2
  | none => none

/-- `advanced_alchemy...get_aa_scope_state(scope, key)`. -/
def get_aa_scope_state (scope : ScopeState) (key : String) : Option Session :=
  dict_get scope key

/-- `advanced_alchemy...set_aa_scope_state(scope, key, value)`: dictionary
update. -/
def set_aa_scope_state (scope : ScopeState) (key : String) (value : Session) : ScopeState :=
  (key, value) :: scope.filter (fun p => !(p.1 == key))

/-- The request as `provide_session` observes it: only its path
parameters. -/
structure Request where
  path_params : List (String × String)
deriving DecidableEq, Repr

/-- Python truthiness of a `str | None` value (`if organisation_slug:`):
false for `None` and for the empty string. -/
def truthyStr : Option String → Bool
  | none => false
  | some s => if s = "" then false else true

/-- Python truthiness of an optional dictionary
(`if schema_translation_map:`): false for `None` and for an empty dict. -/
def truthyMap : Option SchemaMap → Bool
  | none => false
  | some m => !m.isEmpty

/-- The schema name derived at `config.py` lines 52-54:
`f"{self.tenant_schema_prefix}{slugify(organisation_slug, separator=self.tenant_schema_separator)}"`. -/
def derived_schema_name (cfg : MTConfig) (organisation_slug : String) : String :=
  cfg.tenant_schema_prefix ++ slugify organisation_slug cfg.tenant_schema_separator

/-- Result of one `provide_session` call: the returned session, the scope
state after the call, and the list of sessions created during the call
(each entry is one invocation of the session maker). -/
structure ProvideResult where
  session : Session
  scope : ScopeState
  created : List Session
deriving DecidableEq, Repr

/-- `SQLAlchemyMultiTenantAsyncConfig.provide_session` (`config.py` lines
34-64).  `fresh` is the identity the session maker would give a newly
created session; the session maker itself is modelled as constructing a
`Session` with the optional engine `schema_translate_map` binding. -/
def provide_session (cfg : MTConfig) (req : Request) (scope : ScopeState)
    (fresh : Nat) : ProvideResult :=
  let cached := get_aa_scope_state scope cfg.session_scope_key
  let organisation_slug := dict_get req.path_params "organisation_slug"
  let schema_translation_map : Option SchemaMap :=
    if truthyStr organisation_slug then
      some [(none, derived_schema_name cfg (organisation_slug.getD ""))]
    else
      none
  match cached with
  | some session => { session := session, scope := scope, created := [] }
  | none =>
      let session : Session :=
        if truthyMap schema_translation_map then
          { id := fresh, bound := schema_translation_map }
        else
          { id := fresh, bound := none }
      { session := session
        scope := set_aa_scope_state scope cfg.session_scope_key session
        created := [session] }

/-! ### `SQLAlchemyInitMultiTenantPlugin` (`src/plugin.py`) and plugin
lookup (`src/plugin_commands.py` lines 22-33) -/

/-- The plugin: it carries the sequence of multi-tenant configurations
(`plugin.py`; the `config` property always yields a sequence). -/
structure SQLAlchemyInitMultiTenantPlugin where
  config : List MTConfig
deriving DecidableEq, Repr

/-- The Litestar application as the CLI commands observe it: whether a
`SQLAlchemyInitMultiTenantPlugin` is registered in its plugin registry. -/
structure Litestar where
  registered : Option SQLAlchemyInitMultiTenantPlugin
deriving DecidableEq, Repr

/-- `app.plugins.get(SQLAlchemyInitMultiTenantPlugin)`: returns the
registered plugin or raises `KeyError`. -/
def plugins_get (app : Litestar) : Except String SQLAlchemyInitMultiTenantPlugin :=
  match app.registered with
  | some plugin => Except.ok plugin
  | none => Except.error "KeyError"

/-- The message of the `ImproperConfigurationError` raised at
`plugin_commands.py` lines 32-33. -/
def improperConfigurationMsg : String :=
  "Failed to initialize database migrations. The required plugin (SQLAlchemyPlugin or SQLAlchemyInitPlugin) is missing."

/-- `get_database_migration_plugin` (`plugin_commands.py` lines 22-33):
`with suppress(KeyError): return app.plugins.get(...)`, then raise
`ImproperConfigurationError`. -/
def get_database_migration_plugin (app : Litestar) :
    Except String SQLAlchemyInitMultiTenantPlugin :=
  match plugins_get app with
  | Except.ok plugin => Except.ok plugin
  | Except.error _ => Except.error improperConfigurationMsg

/-! ### Revision-type validation (`plugin_commands.py` lines 36-52) -/

/-- `is_valid_revision_type` (`plugin_commands.py` lines 36-40). -/
def is_valid_revision_type (revision_type : String)
    (valid_revision_type : List String) : Bool :=
  if valid_revision_type.contains revision_type then true else false

/-- What one call of `prompt_and_validate_revision` returns and does:
the returned value, whether the CLI prompt was invoked, and the message
of the `BadOptionUsage` object constructed (never raised) on validation
failure. -/
structure PromptOutcome where
  value : String
  promptCalled : Bool
  errorConstructed : Option String
deriving DecidableEq, Repr

/-- `prompt_and_validate_revision` (`plugin_commands.py` lines 43-52).
`promptResult` models the value returned by `click.prompt` when it is
invoked.  `revision_type = revision_type or prompt(...)` prompts whenever
the argument is falsy, i.e. `None` or the empty string.  On validation
failure a `BadOptionUsage` is constructed from
`"Revision type should be one of [{}|{}]".format(*valid_revision_type)`
but never raised; the `format` call itself raises `IndexError` when the
list holds fewer than two labels. -/
def prompt_and_validate_revision (revision_type : Option String)
    (valid_revision_type : List String) (promptResult : String) :
    Except String PromptOutcome :=
  let prompted := !truthyStr revision_type
  let rt := if truthyStr revision_type then revision_type.getD "" else promptResult
  if is_valid_revision_type rt valid_revision_type then
    Except.ok { value := rt, promptCalled := prompted, errorConstructed := none }
  else
    match valid_revision_type with
    | a :: b :: _ =>
        Except.ok
          { value := rt
            promptCalled := prompted
            errorConstructed :=
              some ("Revision type should be one of [" ++ a ++ "|" ++ b ++ "]") }
    | _ => Except.error "IndexError"

/-! ### Migration CLI commands (`plugin_commands.py`)

Each command is modelled by the externally visible operations it performs:
migration-engine invocations and `DROP SCHEMA` statements, in execution
order, plus the exception it propagates, if any.  Console output and the
`script_location` main-option assignment that immediately precedes each
engine invocation are folded into the recorded operation. -/

/-- An externally visible effect of a CLI command. -/
inductive MigrationOp where
  | alembicUpgrade (script_location revision : String) (sql : Bool) (tag : Option String)
  | alembicDowngrade (script_location revision : String) (sql : Bool) (tag : Option String)
  | dropSchema (schema : String)
deriving DecidableEq, Repr

/-- Outcome of a CLI command: the operations it executed (in order) and
the exception it ended with, if any.  An exception in this code always
occurs before any operation has run. -/
structure CmdResult where
  ops : List MigrationOp
  error : Option String
deriving DecidableEq, Repr

/-- `upgrade_database` (`plugin_commands.py` lines 191-227).
`userConfirm` models the answer `Confirm.ask` would return when asked;
`promptResult` models the revision-type prompt. -/
def upgrade_database (app : Litestar) (revision_type : Option String)
    (revision : String) (sql : Bool) (tag : Option String)
    (no_prompt : Bool) (userConfirm : Bool) (promptResult : String) : CmdResult :=
  let input_confirmed := if no_prompt then true else userConfirm
  if input_confirmed then
    match get_database_migration_plugin app with
    | Except.error e => { ops := [], error := some e }
    | Except.ok plugin =>
        match plugin.config with
        | [] => { ops := [], error := some "IndexError" }
        | sqlalchemy_config :: _ =>
            let valid_revision :=
              [ sqlalchemy_config.core_revision_name, sqlalchemy_config.tenant_revision_name]
            match prompt_and_validate_revision revision_type valid_revision promptResult with
            | Except.error e => { ops := [], error := some e }
            | Except.ok outcome =>
                { ops :=
                    [MigrationOp.alembicUpgrade
                      ( sqlalchemy_config.alembic_script_location ++ "/" ++ outcome.value)
                      revision sql tag]
                  error := none }
  else { ops := [], error := none }

/-- `downgrade_database` (`plugin_commands.py` lines 120-156): identical
shape to `upgrade_database`, delegating to `alembic_commands.downgrade`. -/
def downgrade_database (app : Litestar) (revision_type : Option String)
    (revision : String) (sql : Bool) (tag : Option String)
    (no_prompt : Bool) (userConfirm : Bool) (promptResult : String) : CmdResult :=
  let input_confirmed := if no_prompt then true else userConfirm
  if input_confirmed then
    match get_database_migration_plugin app with
    | Except.error e => { ops := [], error := some e }
    | Except.ok plugin =>
        match plugin.config with
        | [] => { ops := [], error := some "IndexError" }
        | sqlalchemy_config :: _ =>
            let valid_revision :=
              [ sqlalchemy_config.core_revision_name, sqlalchemy_config.tenant_revision_name]
            match prompt_and_validate_revision revision_type valid_revision promptResult with
            | Except.error e => { ops := [], error := some e }
            | Except.ok outcome =>
                { ops :=
                    [MigrationOp.alembicDowngrade
                      ( sqlalchemy_config.alembic_script_location ++ "/" ++ outcome.value)
                      revision sql tag]
                  error := none }
  else { ops := [], error := none }

/-- `plugin_commands.py` line 574: the tenant schemas selected for
dropping, out of the schema names reported by the database inspector. -/
def tenant_schemas_of (cfg : MTConfig) (all_schemas : List String) : List String :=
  all_schemas.filter (fun schema => schema.startsWith cfg.tenant_schema_prefix)

/-- The `DROP SCHEMA ... CASCADE` statements issued for one configuration
by `_drop_all` (`plugin_commands.py` lines 568-583): every selected tenant
schema in order, then the core schema. -/
def drop_statements_for (cfg : MTConfig) (all_schemas : List String) : List MigrationOp :=
  (tenant_schemas_of cfg all_schemas).map MigrationOp.dropSchema ++
    [MigrationOp.dropSchema cfg.core_schema_name]

/-- `drop_all` (`plugin_commands.py` lines 555-589).  `db cfg` models the
schema names the inspector reports on the engine of `cfg`.  Note the
plugin lookup happens before the confirmation check in the source. -/
def drop_all (app : Litestar) (db : MTConfig → List String)
    (no_prompt : Bool) (userConfirm : Bool) : CmdResult :=
  let input_confirmed := no_prompt || userConfirm
  match get_database_migration_plugin app with
  | Except.error e => { ops := [], error := some e }
  | Except.ok plugin =>
      if input_confirmed then
        { ops := plugin.config.flatMap (fun cfg => drop_statements_for cfg (db cfg))
          error := none }
      else { ops := [], error := none }

/-! ### Helper lemmas -/

/-- Looking up the key just written by `set_aa_scope_state` yields the
written session. -/
theorem get_set_same (scope : ScopeState) (k : String) (v : Session) :
    get_aa_scope_state (set_aa_scope_state scope k v) k = some v := by
  simp [get_aa_scope_state, set_aa_scope_state, dict_get, List.find?]

/-- The session that an uncached `provide_session` call constructs, as a
function of the configuration and the request. -/
def newSession (cfg : MTConfig) (req : Request) (fresh : Nat) : Session :=
  if truthyStr (dict_get req.path_params "organisation_slug") then
    { id := fresh
      bound :=
        some [(none, derived_schema_name cfg
          ((dict_get req.path_params "organisation_slug").getD ""))] }
  else
    { id := fresh, bound := none }

/-- With a cached session in scope, `provide_session` returns it and does
nothing else. -/
theorem provide_session_cached (cfg : MTConfig) (req : Request) (scope : ScopeState)
    (fresh : Nat) (s : Session)
    (h : get_aa_scope_state scope cfg.session_scope_key = some s) :
    provide_session cfg req scope fresh = { session := s, scope := scope, created := [] } := by
  simp only [provide_session]
  rw [h]

/-- With no cached session, `provide_session` constructs `newSession`,
stores it, and reports it as created. -/
theorem provide_session_uncached (cfg : MTConfig) (req : Request) (scope : ScopeState)
    (fresh : Nat)
    (h : get_aa_scope_state scope cfg.session_scope_key = none) :
    provide_session cfg req scope fresh =
      { session := newSession cfg req fresh
        scope := set_aa_scope_state scope cfg.session_scope_key (newSession cfg req fresh)
        created := [newSession cfg req fresh] } := by
  simp only [provide_session, newSession]
  rw [h]
  cases ht : truthyStr (dict_get req.path_params "organisation_slug") <;>
    simp [ht, truthyMap]

/-- `is_valid_revision_type` decides list membership. -/
theorem is_valid_iff_mem (revision_type : String) (valid_revision_type : List String) :
    is_valid_revision_type revision_type valid_revision_type = true ↔
      revision_type ∈ valid_revision_type := by
  simp [is_valid_revision_type]

/-- Filtering out a key makes `dict_get` miss. -/
theorem dict_get_filter_self {α : Type} (ps : List (String × α)) (k : String) :
    dict_get (ps.filter (fun p => !(p.1 == k))) k = none := by
  have hfind : (ps.filter (fun p => !(p.1 == k))).find? (fun p => p.1 == k) = none := by
    rw [List.find?_eq_none]
    intro x hx
    rcases List.mem_filter.mp hx with ⟨_, hcond⟩
    simpa using hcond
  simp [dict_get, hfind]

/-! ### Claim theorems -/

/-- C1: for every request scope whose scope state has no cached session
under `session_scope_key`, one call to `provide_session` creates exactly
one session and stores it in the scope state under `session_scope_key`;
every subsequent call with the same scope returns that cached session and
creates no new session. -/
theorem C1_provide_session_caches_once (cfg : MTConfig) (req : Request)
    (scope : ScopeState) (fresh : Nat)
    (h : get_aa_scope_state scope cfg.session_scope_key = none) :
    (provide_session cfg req scope fresh).created =
        [(provide_session cfg req scope fresh).session] ∧
    get_aa_scope_state (provide_session cfg req scope fresh).scope
        cfg.session_scope_key = some (provide_session cfg req scope fresh).session ∧
    ∀ (req2 : Request) (fresh2 : Nat),
      provide_session cfg req2 (provide_session cfg req scope fresh).scope fresh2 =
        { session := (provide_session cfg req scope fresh).session
          scope := (provide_session cfg req scope fresh).scope
          created := [] } := by
  have hu := provide_session_uncached cfg req scope fresh h
  refine ⟨?_, ?_, ?_⟩
  · rw [hu]
  · rw [hu]
    exact get_set_same scope cfg.session_scope_key (newSession cfg req fresh)
  · intro req2 fresh2
    rw [hu]
    exact provide_session_cached cfg req2 _ fresh2 _
      (get_set_same scope cfg.session_scope_key (newSession cfg req fresh))

/-- C1 witness: concrete instantiation with the default configuration,
an empty request and an empty scope. -/
theorem C1_witness :
    get_aa_scope_state ([] : ScopeState) mtDefault.session_scope_key = none ∧
    (provide_session mtDefault { path_params := [] } [] 0).created =
        [(provide_session mtDefault { path_params := [] } [] 0).session] ∧
    get_aa_scope_state (provide_session mtDefault { path_params := [] } [] 0).scope
        mtDefault.session_scope_key =
      some (provide_session mtDefault { path_params := [] } [] 0).session ∧
    provide_session mtDefault { path_params := [] }
        (provide_session mtDefault { path_params := [] } [] 0).scope 5 =
      { session := (provide_session mtDefault { path_params := [] } [] 0).session
        scope := (provide_session mtDefault { path_params := [] } [] 0).scope
        created := [] } :=
  ⟨rfl,
    (C1_provide_session_caches_once mtDefault { path_params := [] } [] 0 rfl).1,
    (C1_provide_session_caches_once mtDefault { path_params := [] } [] 0 rfl).2.1,
    (C1_provide_session_caches_once mtDefault { path_params := [] } [] 0 rfl).2.2
      { path_params := [] } 5⟩

/-- C2 counterexample: with the default configuration (tenant prefix
`"tenant"`, separator `"_"`) and tenant slug `"Acme Corp"`, the schema
name the code derives is `"tenantacme_corp"`, whereas the claimed shape
prefix ++ separator ++ slugified-slug is `"tenant_acme_corp"`: the code
passes the separator into `slugify` and puts nothing between the prefix
and the slug. -/
theorem C2_counterexample :
    (provide_session mtDefault { path_params := [("organisation_slug", "Acme Corp")] }
        [] 0).session.bound = some [(none, "tenantacme_corp")] ∧
    mtDefault.tenant_schema_prefix ++ mtDefault.tenant_schema_separator ++
        slugify "Acme Corp" mtDefault.tenant_schema_separator = "tenant_acme_corp" ∧
    ("tenantacme_corp" : String) ≠ "tenant_acme_corp" := by
  refine ⟨by decide, by decide, by decide⟩

/-- C2 (amended): for every non-empty tenant slug taken from the request
path parameter, the schema name derived by `provide_session` equals the
configured tenant prefix immediately followed by the slugified slug,
where the configured separator is the one used by `slugify` inside the
slug; no separator is inserted between the prefix and the slug. -/
theorem C2_amended_schema_name (cfg : MTConfig) (req : Request) (scope : ScopeState)
    (fresh : Nat) (s : String)
    (hs : dict_get req.path_params "organisation_slug" = some s)
    (hne : s ≠ "")
    (h : get_aa_scope_state scope cfg.session_scope_key = none) :
    (provide_session cfg req scope fresh).session.bound =
      some [(none, cfg.tenant_schema_prefix ++ slugify s cfg.tenant_schema_separator)] := by
  rw [provide_session_uncached cfg req scope fresh h]
  simp [newSession, hs, truthyStr, hne, derived_schema_name]

/-- C2 witness: the amended claim at the concrete counterexample input. -/
theorem C2_witness :
    dict_get [("organisation_slug", "Acme Corp")] "organisation_slug" = some "Acme Corp" ∧
    ("Acme Corp" : String) ≠ "" ∧
    get_aa_scope_state ([] : ScopeState) mtDefault.session_scope_key = none ∧
    (provide_session mtDefault { path_params := [("organisation_slug", "Acme Corp")] }
        [] 0).session.bound =
      some [(none, mtDefault.tenant_schema_prefix ++
        slugify "Acme Corp" mtDefault.tenant_schema_separator)] :=
  ⟨rfl, by decide, rfl,
    C2_amended_schema_name mtDefault { path_params := [("organisation_slug", "Acme Corp")] }
      [] 0 "Acme Corp" rfl (by decide) rfl⟩

/-- C3: for every request whose path parameters contain a non-empty
`organisation_slug` and whose scope has no cached session,
`provide_session` builds the schema-translation mapping mapping `None` to
the derived schema name, creates the session with that mapping bound, and
caches the result in scope state. -/
theorem C3_tenant_session_created_and_cached (cfg : MTConfig) (req : Request)
    (scope : ScopeState) (fresh : Nat) (s : String)
    (hs : dict_get req.path_params "organisation_slug" = some s)
    (hne : s ≠ "")
    (h : get_aa_scope_state scope cfg.session_scope_key = none) :
    provide_session cfg req scope fresh =
      { session := { id := fresh, bound := some [(none, derived_schema_name cfg s)] }
        scope := set_aa_scope_state scope cfg.session_scope_key
          { id := fresh, bound := some [(none, derived_schema_name cfg s)] }
        created := [{ id := fresh, bound := some [(none, derived_schema_name cfg s)] }] } := by
  rw [provide_session_uncached cfg req scope fresh h]
  have hnew : newSession cfg req fresh =
      { id := fresh, bound := some [(none, derived_schema_name cfg s)] } := by
    simp [newSession, hs, truthyStr, hne]
  rw [hnew]

/-- C3 witness: concrete tenant request on an empty scope. -/
theorem C3_witness :
    dict_get [("organisation_slug", "My Org")] "organisation_slug" = some "My Org" ∧
    ("My Org" : String) ≠ "" ∧
    get_aa_scope_state ([] : ScopeState) mtDefault.session_scope_key = none ∧
    provide_session mtDefault { path_params := [("organisation_slug", "My Org")] } [] 7 =
      { session := { id := 7, bound := some [(none, derived_schema_name mtDefault "My Org")] }
        scope := set_aa_scope_state [] mtDefault.session_scope_key
          { id := 7, bound := some [(none, derived_schema_name mtDefault "My Org")] }
        created :=
          [{ id := 7, bound := some [(none, derived_schema_name mtDefault "My Org")] }] } :=
  ⟨rfl, by decide, rfl,
    C3_tenant_session_created_and_cached mtDefault
      { path_params := [("organisation_slug", "My Org")] } [] 7 "My Org" rfl (by decide) rfl⟩

/-- C4: for every request whose path parameters contain no
`organisation_slug` key and whose scope has no cached session,
`provide_session` calls the session maker with no schema-translation
mapping and caches the result; the model is total, so the call returns a
session and raises nothing. -/
theorem C4_no_tenant_no_translation (cfg : MTConfig) (req : Request)
    (scope : ScopeState) (fresh : Nat)
    (hs : dict_get req.path_params "organisation_slug" = none)
    (h : get_aa_scope_state scope cfg.session_scope_key = none) :
    provide_session cfg req scope fresh =
      { session := { id := fresh, bound := none }
        scope := set_aa_scope_state scope cfg.session_scope_key
          { id := fresh, bound := none }
        created := [{ id := fresh, bound := none }] } := by
  rw [provide_session_uncached cfg req scope fresh h]
  have hnew : newSession cfg req fresh = { id := fresh, bound := none } := by
    simp [newSession, hs, truthyStr]
  rw [hnew]

/-- C4 witness: a request with unrelated path parameters only. -/
theorem C4_witness :
    dict_get [("user_id", "42")] "organisation_slug" = none ∧
    get_aa_scope_state ([] : ScopeState) mtDefault.session_scope_key = none ∧
    provide_session mtDefault { path_params := [("user_id", "42")] } [] 3 =
      { session := { id := 3, bound := none }
        scope := set_aa_scope_state [] mtDefault.session_scope_key
          { id := 3, bound := none }
        created := [{ id := 3, bound := none }] } :=
  ⟨rfl, rfl,
    C4_no_tenant_no_translation mtDefault { path_params := [("user_id", "42")] } [] 3 rfl rfl⟩

/-- C5: `is_valid_revision_type` returns true iff the revision type is an
element of the list of configured labels. -/
theorem C5_is_valid_revision_type_iff (revision_type : String)
    (valid_revision_type : List String) :
    is_valid_revision_type revision_type valid_revision_type = true ↔
      revision_type ∈ valid_revision_type :=
  is_valid_iff_mem revision_type valid_revision_type

/-- C5 witness: membership at a concrete input. -/
theorem C5_witness : is_valid_revision_type "core" ["core", "tenant"] = true :=
  (C5_is_valid_revision_type_iff "core" ["core", "tenant"]).mpr (by decide)

/-- Dropping the length of a mapped list from its append with a tail
yields the tail. -/
theorem drop_map_append {α β : Type} (l : List α) (f : α → β) (t : List β) :
    ((l.map f) ++ t).drop l.length = t := by
  induction l with
  | nil => rfl
  | cons x xs ih => simp [ih]

/-- C6 counterexample: the revision type `""` is not `None` and is not a
valid label, yet `prompt_and_validate_revision` does not return it
unchanged and constructs no error object: `"" or prompt(...)` treats the
empty string as absent and invokes the prompt (here answering
`"core"`). -/
theorem C6_counterexample :
    prompt_and_validate_revision (some "") ["core", "tenant"] "core" =
      Except.ok { value := "core", promptCalled := true, errorConstructed := none } ∧
    (some "" : Option String) ≠ none ∧
    is_valid_revision_type "" ["core", "tenant"] = false := by
  refine ⟨rfl, by decide, by decide⟩

/-- C6 (amended): for every non-`None` and non-empty revision type that is
not one of the two configured labels, `prompt_and_validate_revision`
constructs its `BadOptionUsage` error object but does not raise or
otherwise use it, and returns the invalid revision type unchanged; an
empty-string revision type is instead treated like `None` and triggers
the prompt. -/
theorem C6_amended_invalid_returned_unchanged (s a b promptResult : String)
    (hne : s ≠ "") (hnv : s ∉ [a, b]) :
    prompt_and_validate_revision (some s) [a, b] promptResult =
      Except.ok
        { value := s
          promptCalled := false
          errorConstructed :=
            some ("Revision type should be one of [" ++ a ++ "|" ++ b ++ "]") } := by
  have hv : ¬ is_valid_revision_type s [a, b] = true := fun hc =>
    hnv ((is_valid_iff_mem s [a, b]).mp hc)
  simp [prompt_and_validate_revision, truthyStr, hne, hv]

/-- C6 witness: the amended claim at a concrete invalid revision type. -/
theorem C6_witness :
    ("bogus" : String) ≠ "" ∧
    ("bogus" : String) ∉ (["core", "tenant"] : List String) ∧
    prompt_and_validate_revision (some "bogus") ["core", "tenant"] "x" =
      Except.ok
        { value := "bogus"
          promptCalled := false
          errorConstructed :=
            some ("Revision type should be one of [" ++ "core" ++ "|" ++ "tenant" ++ "]") } :=
  ⟨by decide, by decide,
    C6_amended_invalid_returned_unchanged "bogus" "core" "tenant" "x" (by decide) (by decide)⟩

/-- C7: `get_database_migration_plugin` raises the single custom
`ImproperConfigurationError` if and only if no
`SQLAlchemyInitMultiTenantPlugin` is registered on the application; when
the plugin is registered it returns that plugin and raises nothing. -/
theorem C7_plugin_lookup (app : Litestar) :
    (get_database_migration_plugin app = Except.error improperConfigurationMsg ↔
      app.registered = none) ∧
    ∀ plugin, app.registered = some plugin →
      get_database_migration_plugin app = Except.ok plugin := by
  cases h : app.registered <;>
    simp [get_database_migration_plugin, plugins_get, h]

/-- The application used by the concrete plugin-lookup witnesses. -/
def witnessApp : Litestar := { registered := some { config := [mtDefault] } }

/-- C7 witness: with the plugin registered, lookup returns it. -/
theorem C7_witness :
    witnessApp.registered = some { config := [mtDefault] } ∧
    get_database_migration_plugin witnessApp = Except.ok { config := [mtDefault] } :=
  ⟨rfl, (C7_plugin_lookup witnessApp).2 { config := [mtDefault] } rfl⟩

/-- C8: for every confirmed run of `drop-all` and every configuration of
the registered plugin, the schemas selected for tenant dropping are
exactly the inspector-reported schemas whose names start with the
configured tenant prefix, the drop statements for the configuration are
those tenant schemas in order followed by the core schema, and after the
tenant drops exactly one statement remains: the drop of the core
schema. -/
theorem C8_drop_all_tenants_before_core (app : Litestar) (db : MTConfig → List String)
    (no_prompt userConfirm : Bool) (plugin : SQLAlchemyInitMultiTenantPlugin)
    (hconf : (no_prompt || userConfirm) = true)
    (hplug : get_database_migration_plugin app = Except.ok plugin) :
    (drop_all app db no_prompt userConfirm).ops =
      plugin.config.flatMap (fun cfg => drop_statements_for cfg (db cfg)) ∧
    ∀ cfg ∈ plugin.config,
      (∀ schema ∈ db cfg,
        (schema ∈ tenant_schemas_of cfg (db cfg) ↔
          schema.startsWith cfg.tenant_schema_prefix = true)) ∧
      drop_statements_for cfg (db cfg) =
        (tenant_schemas_of cfg (db cfg)).map MigrationOp.dropSchema ++
          [MigrationOp.dropSchema cfg.core_schema_name] ∧
      (drop_statements_for cfg (db cfg)).drop (tenant_schemas_of cfg (db cfg)).length =
        [MigrationOp.dropSchema cfg.core_schema_name] := by
  constructor
  · simp only [drop_all]
    rw [hplug]
    simp [hconf]
  · intro cfg _
    refine ⟨?_, rfl, ?_⟩
    · intro schema hschema
      simp [tenant_schemas_of, List.mem_filter, hschema]
    · simp only [drop_statements_for]
      exact drop_map_append _ _ _

/-- The inspector-reported schema names used by the `drop-all` witness. -/
def witnessDb : MTConfig → List String :=
  fun _ => ["tenant_a", "core", "information_schema", "tenantx"]

/-- C8 witness: a confirmed run over a database with two tenant schemas. -/
theorem C8_witness :
    (false || true) = true ∧
    get_database_migration_plugin witnessApp = Except.ok { config := [mtDefault] } ∧
    ((drop_all witnessApp witnessDb false true).ops =
      ({ config := [mtDefault] } : SQLAlchemyInitMultiTenantPlugin).config.flatMap
        (fun cfg => drop_statements_for cfg (witnessDb cfg)) ∧
    ∀ cfg ∈ ({ config := [mtDefault] } : SQLAlchemyInitMultiTenantPlugin).config,
      (∀ schema ∈ witnessDb cfg,
        (schema ∈ tenant_schemas_of cfg (witnessDb cfg) ↔
          schema.startsWith cfg.tenant_schema_prefix = true)) ∧
      drop_statements_for cfg (witnessDb cfg) =
        (tenant_schemas_of cfg (witnessDb cfg)).map MigrationOp.dropSchema ++
          [MigrationOp.dropSchema cfg.core_schema_name] ∧
      (drop_statements_for cfg (witnessDb cfg)).drop
          (tenant_schemas_of cfg (witnessDb cfg)).length =
        [MigrationOp.dropSchema cfg.core_schema_name]) :=
  ⟨rfl, rfl,
    C8_drop_all_tenants_before_core witnessApp witnessDb false true
      { config := [mtDefault] } rfl rfl⟩

/-- C9: a request whose path parameters bind `organisation_slug` to the
empty string is treated exactly as if the parameter were missing: the
call behaves identically to the call on the request with the parameter
filtered out, and on an uncached scope the created session carries no
schema-translation mapping. -/
theorem C9_empty_slug_like_missing (cfg : MTConfig) (req : Request)
    (scope : ScopeState) (fresh : Nat)
    (hs : dict_get req.path_params "organisation_slug" = some "") :
    provide_session cfg req scope fresh =
      provide_session cfg
        { path_params := req.path_params.filter (fun p => !(p.1 == "organisation_slug")) }
        scope fresh ∧
    (get_aa_scope_state scope cfg.session_scope_key = none →
      (provide_session cfg req scope fresh).session.bound = none) := by
  constructor
  · cases hc : get_aa_scope_state scope cfg.session_scope_key with
    | some s =>
        rw [provide_session_cached cfg req scope fresh s hc,
          provide_session_cached cfg _ scope fresh s hc]
    | none =>
        rw [provide_session_uncached cfg req scope fresh hc,
          provide_session_uncached cfg _ scope fresh hc]
        have h1 : newSession cfg req fresh = { id := fresh, bound := none } := by
          simp [newSession, hs, truthyStr]
        have h2 : newSession cfg
            { path_params :=
              req.path_params.filter (fun p => !(p.1 == "organisation_slug")) }
            fresh = { id := fresh, bound := none } := by
          simp [newSession, dict_get_filter_self, truthyStr]
        rw [h1, h2]
  · intro h
    rw [provide_session_uncached cfg req scope fresh h]
    simp [newSession, hs, truthyStr]

/-- C9 witness: concrete request binding `organisation_slug` to `""`. -/
theorem C9_witness :
    dict_get [("organisation_slug", ""), ("user_id", "9")] "organisation_slug" = some "" ∧
    provide_session mtDefault
        { path_params := [("organisation_slug", ""), ("user_id", "9")] } [] 1 =
      provide_session mtDefault
        { path_params :=
          ([("organisation_slug", ""), ("user_id", "9")] :
            List (String × String)).filter (fun p => !(p.1 == "organisation_slug")) }
        [] 1 ∧
    (provide_session mtDefault
        { path_params := [("organisation_slug", ""), ("user_id", "9")] } [] 1).session.bound =
      none :=
  ⟨rfl,
    (C9_empty_slug_like_missing mtDefault
      { path_params := [("organisation_slug", ""), ("user_id", "9")] } [] 1 rfl).1,
    (C9_empty_slug_like_missing mtDefault
      { path_params := [("organisation_slug", ""), ("user_id", "9")] } [] 1 rfl).2 rfl⟩

/-- C10: when `no_prompt` is false and the user declines the confirmation
prompt, `upgrade`, `downgrade` and `drop-all` execute no migration-engine
operation and no schema-drop statement. -/
theorem C10_declined_no_operations (app : Litestar) (db : MTConfig → List String)
    (revision_type : Option String) (revision : String) (sql : Bool)
    (tag : Option String) (promptResult : String) :
    upgrade_database app revision_type revision sql tag false false promptResult =
      { ops := [], error := none } ∧
    downgrade_database app revision_type revision sql tag false false promptResult =
      { ops := [], error := none } ∧
    (drop_all app db false false).ops = [] := by
  refine ⟨rfl, rfl, ?_⟩
  simp only [drop_all]
  cases hE : get_database_migration_plugin app <;> simp [hE]

end MT
